import Mathlib

/-!
Verification development for the `backend-learning` repository.

The repository is a Go study corpus.  The executable artefacts it contains are:

* `src/Golang/基础/demo/command line/cmdline.go` — a command-line file utility
  over `os` primitives (`main`, `parseFlags`, `createFile`, `readFile`,
  `writeFile`, `appendToFile`, `copyFile`, `deleteFile`, `listFiles`,
  `renameFile`);
* `src/unnamed/part_005` — a standalone demo file with `handleError` and
  `doubleEven`;
* `src/Golang/中高级/并发模型与调度器.md` — notes reproducing Go runtime code
  (`schedule`, `chansend`, `Mutex.Lock`/`lockSlow`) and sketching a goroutine
  pool (`Config`, `DefaultConfig`, `NewPool`, `dispatcher`; the file is
  truncated inside `dispatcher`).

Each Go fragment is shallowly embedded below: machine integers become `Nat`
or `Int`, the file system becomes an association list from paths to entries,
channel effects become labelled results, and fallible functions return
`Except`/`Option` values mirroring the Go `error` conventions.
-/

namespace BackendLearning

/-- A Go `error` value produced by `errors.New`: just its message. -/
structure GoError where
  msg : String
deriving DecidableEq, Repr

/-! ## The standalone demo file `src/unnamed/part_005`

The file is `package main`, imports `errors` and `fmt`, and declares:

```go
func handleError() { fmt.Printf("hello world!") }

type error interface { Error() string }

func doubleEven(i int) (int, error) {
    if i %2 != 0 {
        return 0, errors.New("only even number are processed")
    }
    return i * 2, nil
}
```
-/

/-- `handleError` from `part_005`: prints `"hello world!"` and returns
nothing; modelled as the text it writes to standard output. -/
def handleError : String := "hello world!"

/-- `doubleEven` from `part_005`.  Go's `%` on `int` is truncated division
remainder, embedded as `Int.tmod`; the `(int, error)` result becomes
`Int × Option GoError` with `none` for `nil`. -/
def doubleEven (i : Int) : Int × Option GoError :=
  if i.tmod 2 ≠ 0 then
    (0, some ⟨"only even number are processed"⟩)
  else
    (i * 2, none)

/-! ### Structural view of the demo file, for the file-level claims -/

/-- A top-level declaration of a Go source file, by kind and name. -/
inductive GoDecl where
  | importDecl (pkg : String)
  | typeDecl (name : String)
  | funcDecl (name : String)
deriving DecidableEq, Repr

/-- The names of the function declarations among a list of declarations. -/
def funcNames (ds : List GoDecl) : List String :=
  ds.foldr (fun d acc => match d with | .funcDecl n => n :: acc | _ => acc) []

/-- The packages imported by a list of declarations. -/
def importedPkgs (ds : List GoDecl) : List String :=
  ds.foldr (fun d acc => match d with | .importDecl n => n :: acc | _ => acc) []

/-- The names of the type declarations among a list of declarations. -/
def typeNames (ds : List GoDecl) : List String :=
  ds.foldr (fun d acc => match d with | .typeDecl n => n :: acc | _ => acc) []

/-- The top-level declarations of `src/unnamed/part_005`, in source order:
imports of `errors` and `fmt`, `func handleError`, the package-level
redeclaration `type error interface`, and `func doubleEven`. -/
def part005Decls : List GoDecl :=
  [.importDecl "errors", .importDecl "fmt",
   .funcDecl "handleError", .typeDecl "error", .funcDecl "doubleEven"]

/-- Go standard-library packages imported anywhere in this repository's Go
sources; none of them is a file of the repository. -/
def goStdPkgs : List String :=
  ["errors", "fmt", "flag", "io", "os",
   "context", "runtime", "sync", "sync/atomic", "time"]

/-- The top-level declarations of the second standalone arithmetic/
error-handling demo file: the `package main` document after the separator
in `src/Golang/基础/basic/basis.md` (lines 184-200), which imports
`errors` and declares `func calcRemainderAndMod` and `func doubleEven`
(the rest of that document is comments). -/
def basisDemoDecls : List GoDecl :=
  [.importDecl "errors",
   .funcDecl "calcRemainderAndMod", .funcDecl "doubleEven"]

/-- The arithmetic/error-handling demo files of the repository, as lists of
declarations: `part_005` and the demo document at the end of `basis.md`. -/
def demoFiles : List (List GoDecl) := [part005Decls, basisDemoDecls]

/-! ## The goroutine-pool configuration (`并发模型与调度器.md`, `NewPool`) -/

/-- `time.Second` in nanoseconds (`time.Duration` is an `int64` count of
nanoseconds). -/
def timeSecond : Int := 1000000000

/-- `Config` from the goroutine-pool sketch. -/
structure Config where
  MinWorkers : Int
  MaxWorkers : Int
  KeepAlive : Int
  QueueSize : Int
deriving DecidableEq, Repr

/-- `DefaultConfig` from the sketch, parameterised by `runtime.NumCPU()`. -/
def DefaultConfig (numCPU : Int) : Config :=
  { MinWorkers := numCPU
    MaxWorkers := numCPU * 2
    KeepAlive := 60 * timeSecond
    QueueSize := 1000 }

/-- The observable result of `NewPool`: the pool's stored configuration, the
capacities of the two channels it allocates, and how many workers the
start-up loop created (`for i := 0; i < config.MinWorkers; i++`
runs `createWorker` exactly `MinWorkers` times when `MinWorkers > 0`,
which the validation guarantees). -/
structure Pool where
  minWorkers : Int
  maxWorkers : Int
  keepAlive : Int
  queueSize : Int
  taskQueueCap : Int
  workerQueueCap : Int
  startedWorkers : Int
deriving DecidableEq, Repr

/-- `NewPool` from the sketch.  A `nil` `*Config` argument is `none`; the
substituted default needs `runtime.NumCPU()`, passed as `numCPU`. -/
def NewPool (cfg? : Option Config) (numCPU : Int) : Except GoError Pool :=
  let config := match cfg? with
    | none => DefaultConfig numCPU
    | some c => c
  if config.MinWorkers ≤ 0 ∨ config.MaxWorkers ≤ 0 then
    .error ⟨"workers count must be positive"⟩
  else if config.MinWorkers > config.MaxWorkers then
    .error ⟨"minWorkers cannot be greater than maxWorkers"⟩
  else
    .ok { minWorkers := config.MinWorkers
          maxWorkers := config.MaxWorkers
          keepAlive := config.KeepAlive
          queueSize := config.QueueSize
          taskQueueCap := config.QueueSize
          workerQueueCap := config.MaxWorkers
          startedWorkers := config.MinWorkers }

/-! ## The command-line file utility (`cmdline.go`)

The file system is modelled as an association list from paths to entries.
File contents are byte lists; a Go `string` is likewise its byte list, so
`string(b)` and `[]byte(s)` are the identity coercions of the model.
Each `os` primitive acts on this model; a failing primitive reports a
`GoError` and leaves the file system unchanged. -/

/-- A Go `string` is a byte sequence. -/
abbrev GoString := List Nat

/-- `string(content)` for `content []byte`: the byte-wise copy. -/
def stringOfBytes (b : List Nat) : GoString := b

/-- `[]byte(content)` for `content string`: the byte-wise copy. -/
def bytesOfString (s : GoString) : List Nat := s

/-- A directory entry as returned by `os.ReadDir`: its name, and whether it
is a subdirectory (`entry.IsDir()`). -/
structure DirEntry where
  name : String
  isDir : Bool
deriving DecidableEq, Repr

/-- A node of the modelled file system: a regular file with its bytes, or a
directory with its listing. -/
inductive FsEntry where
  | file (content : List Nat)
  | dir (entries : List DirEntry)
deriving DecidableEq, Repr

/-- The file system: paths bound to entries, later bindings hidden by
earlier ones. -/
abbrev FS := List (String × FsEntry)

/-- Look a path up in the file system. -/
def FS.find (fs : FS) (p : String) : Option FsEntry :=
  match fs with
  | [] => none
  | (q, e) :: rest => if q = p then some e else FS.find rest p

/-- Bind `p` to `e`, replacing any previous binding. -/
def FS.update (fs : FS) (p : String) (e : FsEntry) : FS :=
  match fs with
  | [] => [(p, e)]
  | (q, e₀) :: rest => if q = p then (p, e) :: rest else (q, e₀) :: FS.update rest p e

/-- Remove every binding of `p`. -/
def FS.erase (fs : FS) (p : String) : FS :=
  match fs with
  | [] => []
  | (q, e₀) :: rest => if q = p then FS.erase rest p else (q, e₀) :: FS.erase rest p

/-! ### The `os` and `io` primitives the utility wraps -/

/-- `os.ReadFile`: the bytes of the regular file at `p`, or an error. -/
def osReadFile (fs : FS) (p : String) : Except GoError (List Nat) :=
  match fs.find p with
  | some (.file c) => .ok c
  | _ => .error ⟨"open " ++ p ++ ": no such file"⟩

/-- `os.WriteFile`: write `data` to the regular file at `p` with the given
permission bits, creating or truncating it; fails if `p` is a directory. -/
def osWriteFile (fs : FS) (p : String) (data : List Nat) (_perm : Nat) :
    Except GoError FS :=
  match fs.find p with
  | some (.dir _) => .error ⟨"open " ++ p ++ ": is a directory"⟩
  | _ => .ok (fs.update p (.file data))

/-- `os.Create`: create or truncate the regular file at `p` and return a
handle to it (the model's handle is the path); fails if `p` is a
directory. -/
def osCreate (fs : FS) (p : String) : Except GoError (String × FS) :=
  match fs.find p with
  | some (.dir _) => .error ⟨"open " ++ p ++ ": is a directory"⟩
  | _ => .ok (p, fs.update p (.file []))

/-- `file.Close()` on a handle: no effect on the modelled file system. -/
def fileClose (_h : String) (fs : FS) : Except GoError FS := .ok fs

/-- `os.Open`: open the regular file at `p` for reading; the model's read
handle is the snapshot of the file's bytes. -/
def osOpen (fs : FS) (p : String) : Except GoError (List Nat) :=
  match fs.find p with
  | some (.file c) => .ok c
  | _ => .error ⟨"open " ++ p ++ ": no such file"⟩

/-- `io.Copy(destFile, srcFile)` where `destFile` was just created empty at
`dest` and `srcFile` holds `content`: the bytes land in `dest`. -/
def ioCopy (fs : FS) (dest : String) (content : List Nat) : Except GoError FS :=
  .ok (fs.update dest (.file content))

/-- `os.Remove`: remove the entry at `p`; fails if there is none. -/
def osRemove (fs : FS) (p : String) : Except GoError FS :=
  match fs.find p with
  | some _ => .ok (fs.erase p)
  | none => .error ⟨"remove " ++ p ++ ": no such file"⟩

/-- `os.Rename`: move the entry at `old` to `new`; fails if `old` is
absent. -/
def osRename (fs : FS) (old new : String) : Except GoError FS :=
  match fs.find old with
  | some e => .ok ((fs.erase old).update new e)
  | none => .error ⟨"rename " ++ old ++ ": no such file"⟩

/-- `os.ReadDir`: the listing of the directory at `p`. -/
def osReadDir (fs : FS) (p : String) : Except GoError (List DirEntry) :=
  match fs.find p with
  | some (.dir es) => .ok es
  | _ => .error ⟨"open " ++ p ++ ": not a directory"⟩

/-- `os.OpenFile(p, os.O_APPEND|os.O_WRONLY, 0644)`: open the existing
regular file at `p` for appending; the handle is the path. -/
def osOpenFileAppend (fs : FS) (p : String) : Except GoError String :=
  match fs.find p with
  | some (.file _) => .ok p
  | _ => .error ⟨"open " ++ p ++ ": no such file"⟩

/-- `file.WriteString(content)` on a handle opened for append at `p`. -/
def fileWriteString (fs : FS) (p : String) (content : GoString) :
    Except GoError FS :=
  match fs.find p with
  | some (.file c) => .ok (fs.update p (.file (c ++ bytesOfString content)))
  | _ => .error ⟨"write " ++ p ++ ": bad file"⟩

/-! ### The wrapper functions of `cmdline.go`, line for line -/

/-- `createFile(path)`: `os.Create`, propagate its error, `defer Close`,
return `nil`.  The result pairs the returned `error` with the resulting
file system. -/
def createFile (fs : FS) (path : String) : Option GoError × FS :=
  match osCreate fs path with
  | .error e => (some e, fs)
  | .ok (h, fs₁) =>
    match fileClose h fs₁ with
    | .error e => (some e, fs₁)
    | .ok fs₂ => (none, fs₂)

/-- `readFile(path)`: `os.ReadFile`, return `("", err)` on error, else the
content converted to `string`. -/
def readFile (fs : FS) (path : String) : GoString × Option GoError :=
  match osReadFile fs path with
  | .error e => ([], some e)
  | .ok content => (stringOfBytes content, none)

/-- `writeFile(path, content)`: exactly
`os.WriteFile(path, []byte(content), 0644)`. -/
def writeFile (fs : FS) (path : String) (content : GoString) :
    Option GoError × FS :=
  match osWriteFile fs path (bytesOfString content) 0o644 with
  | .error e => (some e, fs)
  | .ok fs₁ => (none, fs₁)

/-- `appendToFile(path, content)`: `os.OpenFile` with append mode, then
`file.WriteString(content)`, each error propagated. -/
def appendToFile (fs : FS) (path : String) (content : GoString) :
    Option GoError × FS :=
  match osOpenFileAppend fs path with
  | .error e => (some e, fs)
  | .ok h =>
    match fileWriteString fs h content with
    | .error e => (some e, fs)
    | .ok fs₁ => (none, fs₁)

/-- `copyFile(src, dest)`: `os.Open(src)`, `os.Create(dest)`,
`io.Copy(destFile, srcFile)`, each error propagated. -/
def copyFile (fs : FS) (src dest : String) : Option GoError × FS :=
  match osOpen fs src with
  | .error e => (some e, fs)
  | .ok srcContent =>
    match osCreate fs dest with
    | .error e => (some e, fs)
    | .ok (_, fs₁) =>
      match ioCopy fs₁ dest srcContent with
      | .error e => (some e, fs₁)
      | .ok fs₂ => (none, fs₂)

/-- `deleteFile(path)`: exactly `os.Remove(path)`. -/
def deleteFile (fs : FS) (path : String) : Option GoError × FS :=
  match osRemove fs path with
  | .error e => (some e, fs)
  | .ok fs₁ => (none, fs₁)

/-- `listFiles(path)`: `os.ReadDir(path)`, return `(nil, err)` on error,
else collect each entry's name, with `"/"` appended when the entry is a
directory, by successive appends as `cmdline.go`'s loop does. -/
def listFiles (fs : FS) (path : String) :
    Option (List String) × Option GoError :=
  match osReadDir fs path with
  | .error e => (none, some e)
  | .ok entries =>
    let files := entries.foldl
      (fun acc entry =>
        let fileInfo := entry.name
        let fileInfo := if entry.isDir then fileInfo ++ "/" else fileInfo
        acc ++ [fileInfo]) []
    (some files, none)

/-- `renameFile(oldPath, newPath)`: exactly `os.Rename(oldPath, newPath)`. -/
def renameFile (fs : FS) (oldPath newPath : String) : Option GoError × FS :=
  match osRename fs oldPath newPath with
  | .error e => (some e, fs)
  | .ok fs₁ => (none, fs₁)

/-! ### `parseFlags`, `printHelp` and `main` -/

/-- The `CommandFlags` struct of `cmdline.go`. -/
structure CommandFlags where
  Create : Bool
  Read : Bool
  Write : Bool
  Copy : Bool
  Delete : Bool
  List : Bool
  Rename : Bool
  Append : Bool
  Help : Bool
  Path : String
  Content : String
  Dest : String
deriving DecidableEq, Repr

/-- A command-line flag registered by `parseFlags`: its name, whether it is
a boolean flag (`flag.BoolVar`) or a string flag (`flag.StringVar`), and its
usage text. -/
structure FlagSpec where
  name : String
  isBool : Bool
  usage : String
deriving DecidableEq, Repr

/-- The flags `parseFlags` registers, in registration order. -/
def parseFlagsRegistered : List FlagSpec :=
  [⟨"create", true, "Create a new file"⟩,
   ⟨"read", true, "Read a file"⟩,
   ⟨"write", true, "Write to a file"⟩,
   ⟨"copy", true, "Copy a file"⟩,
   ⟨"delete", true, "Delete a file"⟩,
   ⟨"list", true, "List files in a directory"⟩,
   ⟨"rename", true, "Rename a file"⟩,
   ⟨"append", true, "Append to a file"⟩,
   ⟨"help", true, "Show help message"⟩,
   ⟨"path", false, "Path to the file or directory"⟩,
   ⟨"content", false, "Content to write to the file"⟩,
   ⟨"dest", false, "Destination path for copy or rename"⟩]

/-- The help text `printHelp` prints: the raw string literal of
`cmdline.go` lines 174-200, character for character (including the two
trailing tabs after `Create a new file` and the two blank lines before
`Examples:`). -/
def helpText : String :=
  "\nUsage: fileutil [options]\nOptions:\n" ++
  "\t-create   Create a new file\t\t\n" ++
  "\t-read     Read a file\n" ++
  "\t-write    Write to a file\n" ++
  "\t-copy     Copy a file\n" ++
  "\t-delete   Delete a file\n" ++
  "\t-list     List files in a directory\n" ++
  "\t-rename   Rename a file\n" ++
  "\t-append   Append to a file\n" ++
  "\t-help     Show help message\n" ++
  "\t-path     Path to the file or directory\n" ++
  "\t-content  Content to write to the file\n" ++
  "\t-dest    Destination path for copy or rename\n" ++
  "\n\nExamples:\n" ++
  "\tfileutil -create -path /path/to/file.txt -content \"Hello, World!\"\n" ++
  "\tfileutil -read -path /path/to/file.txt\n" ++
  "\tfileutil -write -path /path/to/file.txt -content \"New content\"\n" ++
  "\tfileutil -copy -path /path/to/file.txt -dest /path/to/copy.txt\n" ++
  "\tfileutil -delete -path /path/to/file.txt\n" ++
  "\tfileutil -list -path /path/to/directory\n" ++
  "\tfileutil -rename -path /path/to/file.txt -dest /path/to/newfile.txt\n" ++
  "\tfileutil -append -path /path/to/file.txt -content \"Appended content\"\n"

/-- An observable action of `main`: text written to standard output, or a
call of one of the file-operation helper functions. -/
inductive Event where
  | printed (text : String)
  | opCalled (helper : String)
deriving DecidableEq, Repr

/-- Rendering of a Go string value for `%s`. -/
def renderGoString (s : GoString) : String :=
  String.mk (s.map Char.ofNat)

/-- The byte sequence of a flag's string value. -/
def goBytes (s : String) : GoString :=
  s.toList.map Char.toNat

/-- `main` of `cmdline.go`, after `parseFlags` has produced `f`: the trace
of prints and helper calls, and the resulting file system.  The `switch`
cases appear in source order (`Create`, `Read`, `Write`, `Append`, `Copy`,
`Delete`, `List`, `Rename`), preceded by the `Help` check. -/
def cmdMain (f : CommandFlags) (fs : FS) : List Event × FS :=
  if f.Help then ([.printed (helpText ++ "\n")], fs)
  else if f.Create then
    if f.Path = "" then
      ([.printed "Path is required for creating a file.\n"], fs)
    else
      match createFile fs f.Path with
      | (some e, fs') =>
        ([.opCalled "createFile",
          .printed ("Error creating file: " ++ e.msg ++ "\n")], fs')
      | (none, fs') =>
        ([.opCalled "createFile",
          .printed ("File created successfully: " ++ f.Path ++ "\n")], fs')
  else if f.Read then
    if f.Path = "" then
      ([.printed "Path is required for reading a file.\n"], fs)
    else
      match readFile fs f.Path with
      | (_, some e) =>
        ([.opCalled "readFile",
          .printed ("Error reading file: " ++ e.msg ++ "\n")], fs)
      | (content, none) =>
        ([.opCalled "readFile",
          .printed ("File content:\n" ++ renderGoString content ++ "\n")], fs)
  else if f.Write then
    if f.Path = "" then
      ([.printed "Path is required for writing to a file.\n"], fs)
    else
      match writeFile fs f.Path (goBytes f.Content) with
      | (some e, fs') =>
        ([.opCalled "writeFile",
          .printed ("Error writing to file: " ++ e.msg ++ "\n")], fs')
      | (none, fs') =>
        ([.opCalled "writeFile",
          .printed ("File written successfully: " ++ f.Path ++ "\n")], fs')
  else if f.Append then
    if f.Path = "" then
      ([.printed "Path is required for appending to a file.\n"], fs)
    else
      match appendToFile fs f.Path (goBytes f.Content) with
      | (some e, fs') =>
        ([.opCalled "appendToFile",
          .printed ("Error appending to file: " ++ e.msg ++ "\n")], fs')
      | (none, fs') =>
        ([.opCalled "appendToFile",
          .printed ("File appended successfully: " ++ f.Path ++ "\n")], fs')
  else if f.Copy then
    if f.Path = "" ∨ f.Dest = "" then
      ([.printed "Path and destination are required for copying a file.\n"], fs)
    else
      match copyFile fs f.Path f.Dest with
      | (some e, fs') =>
        ([.opCalled "copyFile",
          .printed ("Error copying file: " ++ e.msg ++ "\n")], fs')
      | (none, fs') =>
        ([.opCalled "copyFile",
          .printed ("File copied successfully from " ++ f.Path ++ " to " ++
            f.Dest ++ "\n")], fs')
  else if f.Delete then
    if f.Path = "" then
      ([.printed "Path is required for deleting a file.\n"], fs)
    else
      match deleteFile fs f.Path with
      | (some e, fs') =>
        ([.opCalled "deleteFile",
          .printed ("Error deleting file: " ++ e.msg ++ "\n")], fs')
      | (none, fs') =>
        ([.opCalled "deleteFile",
          .printed ("File deleted successfully: " ++ f.Path ++ "\n")], fs')
  else if f.List then
    if f.Path = "" then
      ([.printed "Path is required for listing files in a directory.\n"], fs)
    else
      match listFiles fs f.Path with
      | (_, some e) =>
        ([.opCalled "listFiles",
          .printed ("Error listing files: " ++ e.msg ++ "\n")], fs)
      | (files?, none) =>
        ([.opCalled "listFiles", .printed "Files in directory:\n"] ++
          (files?.getD []).map (fun file => .printed (file ++ "\n")), fs)
  else if f.Rename then
    if f.Path = "" ∨ f.Dest = "" then
      ([.printed "Path and destination are required for renaming a file.\n"], fs)
    else
      match renameFile fs f.Path f.Dest with
      | (some e, fs') =>
        ([.opCalled "renameFile",
          .printed ("Error renaming file: " ++ e.msg ++ "\n")], fs')
      | (none, fs') =>
        ([.opCalled "renameFile",
          .printed ("File renamed successfully from " ++ f.Path ++ " to " ++
            f.Dest ++ "\n")], fs')
  else
    ([.printed (helpText ++ "\n")], fs)

/-! ### The operations selectable from the command line -/

/-- The file operations `cmdMain`'s `switch` can dispatch to. -/
inductive Op where
  | create | read | write | append | copy | delete | list | rename
deriving DecidableEq, Repr

/-- The operation `cmdMain` selects for a given flag record, following the
`switch`'s source order; `none` when no operation flag is set (help is
printed instead).  The `Help` check precedes the `switch`, so this
describes the selection only when `Help` is unset. -/
def selectedOp (f : CommandFlags) : Option Op :=
  if f.Create then some .create
  else if f.Read then some .read
  else if f.Write then some .write
  else if f.Append then some .append
  else if f.Copy then some .copy
  else if f.Delete then some .delete
  else if f.List then some .list
  else if f.Rename then some .rename
  else none

/-- The helper function each operation dispatches to. -/
def helperName : Op → String
  | .create => "createFile"
  | .read => "readFile"
  | .write => "writeFile"
  | .append => "appendToFile"
  | .copy => "copyFile"
  | .delete => "deleteFile"
  | .list => "listFiles"
  | .rename => "renameFile"

/-- The boolean flag that selects each operation. -/
def opFlagName : Op → String
  | .create => "create"
  | .read => "read"
  | .write => "write"
  | .append => "append"
  | .copy => "copy"
  | .delete => "delete"
  | .list => "list"
  | .rename => "rename"

/-- The message `cmdMain` prints when the selected operation's required
argument is missing. -/
def missingArgMsg : Op → String
  | .create => "Path is required for creating a file."
  | .read => "Path is required for reading a file."
  | .write => "Path is required for writing to a file."
  | .append => "Path is required for appending to a file."
  | .copy => "Path and destination are required for copying a file."
  | .delete => "Path is required for deleting a file."
  | .list => "Path is required for listing files in a directory."
  | .rename => "Path and destination are required for renaming a file."

/-- The selected operation's required argument is empty: `-path` for
`create`, `read`, `write`, `append`, `delete` and `list`; `-path` or
`-dest` for `copy` and `rename`. -/
def requiredMissing : Op → CommandFlags → Prop
  | .copy, f => f.Path = "" ∨ f.Dest = ""
  | .rename, f => f.Path = "" ∨ f.Dest = ""
  | _, f => f.Path = ""

/-- A flag record with exactly one operation flag set and all string flags
empty. -/
def onlyFlag (o : Op) : CommandFlags :=
  { Create := o = .create, Read := o = .read, Write := o = .write,
    Copy := o = .copy, Delete := o = .delete, List := o = .list,
    Rename := o = .rename, Append := o = .append, Help := false,
    Path := "", Content := "", Dest := "" }

/-! ### Spec-side descriptions of the wrappers (for the refinement claim)

Each definition below follows the spec's words for the corresponding
wrapper, to be compared with the definition taken from `cmdline.go`. -/

/-- Follows the spec's words: `readFile(path)` equals `os.ReadFile(path)`
converted to string. -/
def readFileSpec (fs : FS) (path : String) : GoString × Option GoError :=
  match osReadFile fs path with
  | .ok content => (stringOfBytes content, none)
  | .error e => ([], some e)

/-- Follows the spec's words: `writeFile(path, content)` equals
`os.WriteFile(path, content, 0644)`. -/
def writeFileSpec (fs : FS) (path : String) (content : GoString) :
    Option GoError × FS :=
  match osWriteFile fs path (bytesOfString content) 0o644 with
  | .ok fs₁ => (none, fs₁)
  | .error e => (some e, fs)

/-- Follows the spec's words: `deleteFile(path)` equals `os.Remove(path)`. -/
def deleteFileSpec (fs : FS) (path : String) : Option GoError × FS :=
  match osRemove fs path with
  | .ok fs₁ => (none, fs₁)
  | .error e => (some e, fs)

/-- Follows the spec's words: `renameFile(old, new)` equals
`os.Rename(old, new)`. -/
def renameFileSpec (fs : FS) (old new : String) : Option GoError × FS :=
  match osRename fs old new with
  | .ok fs₁ => (none, fs₁)
  | .error e => (some e, fs)

/-- Follows the spec's words: `createFile(path)` is `os.Create` followed by
`Close`. -/
def createFileSpec (fs : FS) (path : String) : Option GoError × FS :=
  match osCreate fs path with
  | .ok (h, fs₁) =>
    (match fileClose h fs₁ with
     | .ok fs₂ => (none, fs₂)
     | .error e => (some e, fs₁))
  | .error e => (some e, fs)

/-- Follows the spec's words: `copyFile(src, dest)` is `os.Open`,
`os.Create` and `io.Copy` composed. -/
def copyFileSpec (fs : FS) (src dest : String) : Option GoError × FS :=
  match osOpen fs src with
  | .ok srcContent =>
    (match osCreate fs dest with
     | .ok (_, fs₁) =>
       (match ioCopy fs₁ dest srcContent with
        | .ok fs₂ => (none, fs₂)
        | .error e => (some e, fs₁))
     | .error e => (some e, fs))
  | .error e => (some e, fs)

/-- Follows the spec's words: `listFiles(path)` returns the `os.ReadDir`
entry names with `"/"` appended to directory entries. -/
def listFilesSpec (fs : FS) (path : String) :
    Option (List String) × Option GoError :=
  match osReadDir fs path with
  | .ok entries =>
    (some (entries.map fun en => if en.isDir then en.name ++ "/" else en.name),
     none)
  | .error e => (none, some e)

/-! ## The scheduler snippet (`并发模型与调度器.md`, `schedule`)

Goroutines are identified by naturals.  The snippet's `schedule` consults,
in order: the global run queue every 61st tick, the P's local run queue
(`runqget`, whose result carries its `inheritTime` flag), and
`findrunnable`.  `findrunnable` (which includes the work-stealing logic) is
taken as an input of the step, since its result depends on the other Ps,
the netpoller and the timers. -/

/-- A goroutine identifier. -/
abbrev G := Nat

/-- What `execute(gp, inheritTime)` receives: the goroutine now run on this
M, and whether it inherits the remaining time slice. -/
structure RunResult where
  g : G
  inheritTime : Bool
deriving DecidableEq, Repr

/-- `execute(gp, inheritTime)` from the snippet: running the goroutine. -/
def execute (gp : G) (inheritTime : Bool) : RunResult :=
  { g := gp, inheritTime := inheritTime }

/-- The scheduler state a single `schedule` call reads: `sched.gcwaiting`,
the P's `schedtick`, the global run queue, the P's local run queue (each
entry paired with the `inheritTime` flag `runqget` would report for it),
and the goroutine `findrunnable` would return. -/
structure SchedState where
  gcwaiting : Nat
  schedtick : Nat
  globrunq : List G
  runq : List (G × Bool)
  findrunnable : G × Bool
deriving DecidableEq, Repr

/-- `globrunqget(p, 1)` from the snippet: take one goroutine off the front
of the global run queue (under `sched.lock`). -/
def globrunqget (q : List G) : Option G := q.head?

/-- `runqget(p)` from the snippet: pop the local run queue. -/
def runqget (q : List (G × Bool)) : Option (G × Bool) := q.head?

/-- `schedule()` from the snippet.  When `sched.gcwaiting != 0` the real
code runs `gcstopm()` and retries from `top`; that retry is outside one
step, so the step returns `none` there.  Otherwise the goroutine found by
the global-queue check (every 61st `schedtick`), `runqget`, or
`findrunnable`, in that order, is handed to `execute`. -/
def schedule (st : SchedState) : Option RunResult :=
  if st.gcwaiting ≠ 0 then none
  else
    let gp₁ : Option G :=
      if st.schedtick % 61 = 0 ∧ st.globrunq.length > 0 then
        globrunqget st.globrunq
      else none
    match gp₁ with
    | some gp => some (execute gp false)
    | none =>
      match runqget st.runq with
      | some (gp, inheritTime) => some (execute gp inheritTime)
      | none => some (execute st.findrunnable.1 st.findrunnable.2)

/-! ## The channel-send snippet (`并发模型与调度器.md`, `chansend`)

Channel element values and waiting receivers are naturals.  The `hchan`
fields the snippet manipulates are embedded directly; `buf` is a list of
length `dataqsiz`.  The outcome of a send is labelled by the path the
code takes. -/

/-- A channel element value. -/
abbrev Val := Nat

/-- A goroutine waiting in `recvq`. -/
abbrev Receiver := Nat

/-- The `hchan` struct fields used by `chansend`.  `closed` is a `uint32`
flag, embedded as the test `closed != 0`; `sendq` keeps the values the
parked senders are waiting to deliver. -/
structure HChan where
  qcount : Nat
  dataqsiz : Nat
  buf : List Val
  closed : Bool
  sendx : Nat
  recvx : Nat
  recvq : List Receiver
  sendq : List Val
deriving DecidableEq, Repr

/-- `full(c)` — called but not reproduced by the snippet; from the
`runtime/chan.go` source the snippet excerpts: a channel with no buffer is
full when no receiver waits, a buffered one when `qcount == dataqsiz`. -/
def full (c : HChan) : Bool :=
  if c.dataqsiz = 0 then c.recvq.isEmpty else c.qcount = c.dataqsiz

/-- The outcome of `chansend`, labelled by the path taken. -/
inductive SendResult where
  /-- `panic(plainError("send on closed channel"))`. -/
  | panicked (message : String)
  /-- A waiting receiver was dequeued from `recvq` and the element handed
  to it directly (`send(c, sg, ep, ...)`); returns `true`. -/
  | handed (r : Receiver) (v : Val) (c : HChan)
  /-- The element was stored in the buffer at `sendx`; returns `true`. -/
  | buffered (c : HChan)
  /-- Non-blocking send that could not proceed; returns `false`. -/
  | wouldBlock (c : HChan)
  /-- Blocking send with no receiver and no buffer space: the sender was
  enqueued on `sendq` and parked (`gopark`). -/
  | parked (c : HChan)
deriving DecidableEq, Repr

/-- `chansend(c, ep, block, callerpc)` from the snippet, for a non-nil
channel: the fast path (`!block && c.closed == 0 && full(c)`), the
closed-channel panic, the direct handoff to a receiver from `recvq`, the
buffered store advancing `sendx` circularly, and the non-blocking `false`
or blocking park. -/
def chansend (c : HChan) (v : Val) (block : Bool) : SendResult :=
  if ¬block ∧ c.closed = false ∧ full c then .wouldBlock c
  else if c.closed then .panicked "send on closed channel"
  else
    match c.recvq with
    | r :: rest => .handed r v { c with recvq := rest }
    | [] =>
      if c.qcount < c.dataqsiz then
        .buffered { c with
          buf := c.buf.set c.sendx v
          sendx := if c.sendx + 1 = c.dataqsiz then 0 else c.sendx + 1
          qcount := c.qcount + 1 }
      else if ¬block then .wouldBlock c
      else .parked { c with sendq := c.sendq ++ [v] }

/-- The state invariant the runtime maintains for a channel: a receiver
waits only while the buffer is empty, the buffer never overfills, `sendx`
indexes into the buffer, and `buf` has length `dataqsiz`. -/
def ChanWF (c : HChan) : Prop :=
  (c.recvq ≠ [] → c.qcount = 0) ∧
  c.qcount ≤ c.dataqsiz ∧
  (0 < c.dataqsiz → c.sendx < c.dataqsiz) ∧
  c.buf.length = c.dataqsiz

/-! ## The mutex snippet (`并发模型与调度器.md`, `Mutex.Lock` and `lockSlow`)

The `int32` state word is embedded as a natural number below `2^32`; the
constants come from the snippet's `const` block (`1 << iota` and the final
`mutexWaiterShift = iota`).  `lockSlow`'s loop body reads `old`, computes a
proposed `new` state, and installs it by compare-and-swap; in starving mode
the handed-off waiter instead adjusts the state by an atomic add. -/

/-- `mutexLocked = 1 << iota` with `iota = 0`. -/
def mutexLocked : Nat := 1 <<< 0

/-- `mutexWoken`: the next `1 << iota`. -/
def mutexWoken : Nat := 1 <<< 1

/-- `mutexStarving`: the next `1 << iota`. -/
def mutexStarving : Nat := 1 <<< 2

/-- `mutexWaiterShift = iota` after the three flag bits. -/
def mutexWaiterShift : Nat := 3

/-- The state `Mutex.Lock`'s fast path
(`CompareAndSwapInt32(&m.state, 0, mutexLocked)`) installs when the mutex
was free. -/
def lockFastPathState : Nat := mutexLocked

/-- The `new` state one iteration of `lockSlow` proposes to install by
compare-and-swap, computed from the `old` state it read and its local
`starving` and `awoke` flags.  Go's `new &^= mutexWoken` is bitwise
and-not, embedded as `Nat.ldiff`. -/
def lockSlowNewState (old : Nat) (starving awoke : Bool) : Nat :=
  let new := old
  let new := if old &&& mutexStarving = 0 then new ||| mutexLocked else new
  let new :=
    if old &&& (mutexLocked ||| mutexStarving) ≠ 0 then
      new + (1 <<< mutexWaiterShift)
    else new
  let new :=
    if starving = true ∧ old &&& mutexLocked ≠ 0 then new ||| mutexStarving
    else new
  if awoke then Nat.ldiff new mutexWoken else new

/-- The `delta` a starving-mode waiter adds to the state on hand-off
(`atomic.AddInt32(&m.state, delta)`): `mutexLocked - 1<<mutexWaiterShift`,
further decreased by `mutexStarving` when the waiter is no longer starving
or is the last waiter. -/
def starvingDelta (old : Nat) (starving : Bool) : Int :=
  let delta : Int :=
    (mutexLocked : Int) - ((1 <<< mutexWaiterShift : Nat) : Int)
  if ¬starving = true ∨ old >>> mutexWaiterShift = 1 then
    delta - (mutexStarving : Int)
  else delta

/-- `atomic.AddInt32` on the state word, with 32-bit wrap-around of the
underlying bit pattern. -/
def addInt32 (s : Nat) (d : Int) : Nat :=
  (((s : Int) + d) % (2 ^ 32)).toNat

/-! ## The truncated `dispatcher` (`并发模型与调度器.md`, final code block)

The file's last fenced code block breaks off inside
`func (p *Pool) dispatcher()`: the text ends at the comment after the
innermost `default:`.  The block's brace structure decides whether the file
contains a complete definition of the dispatch behaviour, so the braces of
the `dispatcher` declaration, in source order from line 818 to the end of
the file, are embedded as a token list. -/

/-- A `{` or `}` of Go source text. -/
inductive BraceTok where
  | lbrace
  | rbrace
deriving DecidableEq, Repr

/-- The brace tokens of the `dispatcher` declaration, from
`func (p *Pool) dispatcher()` (line 819) to the end of the file.  Each
token's source line is noted. -/
def dispatcherBraces : List BraceTok :=
  [.lbrace,   -- line 819: func (p *Pool) dispatcher()
   .lbrace,   -- line 820: for
   .lbrace,   -- line 821: select
   .lbrace,   -- line 824: if the task deadline is exceeded
   .lbrace,   -- line 826: if task.Callback is non-nil
   .rbrace,   -- line 828: closes the Callback if
   .rbrace,   -- line 830: closes the deadline if
   .lbrace,   -- line 833: inner select on p.workerQueue
   .lbrace,   -- line 836: select sending task to workerChan
   .lbrace]   -- line 840: select re-enqueueing task on p.taskQueue
              -- line 844: the file ends inside this select

/-- `+1` for `{`, `-1` for `}`. -/
def braceDelta : BraceTok → Int
  | .lbrace => 1
  | .rbrace => -1

/-- The running brace balance of a token list. -/
def braceBalance (ts : List BraceTok) : Int :=
  ts.foldl (fun acc t => acc + braceDelta t) 0

/-- A declaration's source text contains a complete brace-delimited body
exactly when some nonempty prefix of its brace tokens balances back to
zero (the opening brace of the declaration is eventually closed). -/
def closesItsBody (ts : List BraceTok) : Bool :=
  (List.range (ts.length + 1)).any fun n =>
    decide (1 ≤ n) && decide (braceBalance (ts.take n) = 0)

/-! ## Theorems -/

/-- C8: for every integer `i`, `doubleEven i` returns `(2*i, nil)` when `i`
is even and `(0, e)` with `e` the error `"only even number are processed"`
when `i` is odd; it returns an error exactly on odd inputs. -/
theorem doubleEven_spec (i : Int) :
    (Even i → doubleEven i = (2 * i, none)) ∧
    (Odd i → doubleEven i = (0, some ⟨"only even number are processed"⟩)) ∧
    ((doubleEven i).2 ≠ none ↔ Odd i) := by
  have hdvd : i.tmod 2 = 0 ↔ Even i := by
    rw [← Int.dvd_iff_tmod_eq_zero]
    constructor
    · rintro ⟨k, hk⟩; exact ⟨k, by omega⟩
    · rintro ⟨k, hk⟩; exact ⟨k, by omega⟩
  by_cases he : Even i
  · have ht : i.tmod 2 = 0 := hdvd.mpr he
    have hde : doubleEven i = (i * 2, none) := by simp [doubleEven, ht]
    refine ⟨fun _ => by rw [hde, Int.mul_comm],
      fun ho => absurd he (Int.not_even_iff_odd.mpr ho), ?_⟩
    rw [hde]
    constructor
    · intro h; exact absurd rfl h
    · intro h; exact absurd he (Int.not_even_iff_odd.mpr h)
  · have ho : Odd i := Int.not_even_iff_odd.mp he
    have ht : ¬ i.tmod 2 = 0 := fun h => he (hdvd.mp h)
    have hde : doubleEven i = (0, some ⟨"only even number are processed"⟩) := by
      simp [doubleEven, ht]
    exact ⟨fun h => absurd h he, fun _ => hde, by rw [hde]; simp [ho]⟩

/-- Witness for `doubleEven_spec` at `i = 4` and `i = 3`. -/
theorem doubleEven_spec_witness :
    doubleEven 4 = (8, none) ∧
    doubleEven 3 = (0, some ⟨"only even number are processed"⟩) :=
  ⟨(doubleEven_spec 4).1 ⟨2, by norm_num⟩,
   (doubleEven_spec 3).2.1 ⟨1, by norm_num⟩⟩

/-- C7: every arithmetic/error-handling demo file of the repository —
`part_005` and the demo document ending `basis.md` — has exactly two
function declarations; in particular `part_005` declares only the
functions `handleError` and `doubleEven` besides the package-level
`type error interface` redeclaration, the `basis.md` demo declares only
`calcRemainderAndMod` and `doubleEven`, and both import only Go
standard-library packages, hence depend on no other file of the
repository. -/
theorem part005_structure :
    (∀ ds ∈ demoFiles, (funcNames ds).length = 2) ∧
    funcNames part005Decls = ["handleError", "doubleEven"] ∧
    typeNames part005Decls = ["error"] ∧
    funcNames basisDemoDecls = ["calcRemainderAndMod", "doubleEven"] ∧
    (∀ p ∈ importedPkgs part005Decls, p ∈ goStdPkgs) ∧
    (∀ p ∈ importedPkgs basisDemoDecls, p ∈ goStdPkgs) := by
  decide

/-- Witness for `part005_structure` at the two concrete demo files and the
concrete import `"errors"`. -/
theorem part005_structure_witness :
    (funcNames part005Decls).length = 2 ∧
    (funcNames basisDemoDecls).length = 2 ∧
    "errors" ∈ goStdPkgs :=
  ⟨part005_structure.1 part005Decls (by decide),
   part005_structure.1 basisDemoDecls (by decide),
   part005_structure.2.2.2.2.2 "errors" (by decide)⟩

/-- C9: `NewPool` errors exactly when a supplied configuration has
`MinWorkers <= 0`, `MaxWorkers <= 0` or `MinWorkers > MaxWorkers`; a `nil`
configuration is replaced by `DefaultConfig` (`NumCPU`, `2*NumCPU`,
`60` seconds, queue `1000`) and never yields an error; a successfully built
pool has `taskQueue` capacity `QueueSize`, `workerQueue` capacity
`MaxWorkers`, and `MinWorkers` started workers. -/
theorem NewPool_spec (cfg : Config) (numCPU : Int) :
    ((∃ e, NewPool (some cfg) numCPU = .error e) ↔
      cfg.MinWorkers ≤ 0 ∨ cfg.MaxWorkers ≤ 0 ∨
        cfg.MinWorkers > cfg.MaxWorkers) ∧
    DefaultConfig numCPU =
      ⟨numCPU, numCPU * 2, 60 * timeSecond, 1000⟩ ∧
    (1 ≤ numCPU → ∃ p, NewPool none numCPU = .ok p) ∧
    (∀ p, NewPool (some cfg) numCPU = .ok p →
      p.taskQueueCap = cfg.QueueSize ∧ p.workerQueueCap = cfg.MaxWorkers ∧
        p.startedWorkers = cfg.MinWorkers) := by
  refine ⟨?_, rfl, ?_, ?_⟩
  · unfold NewPool
    dsimp only
    split_ifs with h₁ h₂
    · simpa using Or.elim h₁ (fun h => Or.inl h) (fun h => Or.inr (Or.inl h))
    · simp only [not_or, not_le] at h₁
      simpa using Or.inr (Or.inr h₂)
    · simp only [not_or, not_le, not_lt] at h₁ h₂
      constructor
      · rintro ⟨e, he⟩; cases he
      · intro h; omega
  · intro h
    unfold NewPool DefaultConfig
    dsimp only
    split_ifs with h₁ h₂
    · exfalso; omega
    · exfalso; omega
    · exact ⟨_, rfl⟩
  · intro p hp
    unfold NewPool at hp
    dsimp only at hp
    split_ifs at hp
    cases hp
    exact ⟨rfl, rfl, rfl⟩

/-- Witness for `NewPool_spec` at a concrete configuration and CPU count:
a default-configured pool for `numCPU = 4` exists, and the pool built from
`Config ⟨2, 4, 0, 7⟩` has the claimed capacities and worker count. -/
theorem NewPool_spec_witness :
    (∃ p, NewPool none 4 = .ok p) ∧
    ((⟨2, 4, 0, 7, 7, 4, 2⟩ : Pool).taskQueueCap = (7 : Int) ∧
      (⟨2, 4, 0, 7, 7, 4, 2⟩ : Pool).workerQueueCap = (4 : Int) ∧
      (⟨2, 4, 0, 7, 7, 4, 2⟩ : Pool).startedWorkers = (2 : Int)) :=
  ⟨(NewPool_spec ⟨2, 4, 0, 7⟩ 4).2.2.1 (by norm_num),
   (NewPool_spec ⟨2, 4, 0, 7⟩ 4).2.2.2 ⟨2, 4, 0, 7, 7, 4, 2⟩ rfl⟩

/-- C2: the `dispatcher` declaration at the end of
`并发模型与调度器.md` opens ten braces and closes only two: no prefix of
its brace stream closes the body opened by
`func (p *Pool) dispatcher()`, so the repository holds no complete
definition of the pool's dispatch behaviour. -/
theorem dispatcher_truncated :
    closesItsBody dispatcherBraces = false ∧
    braceBalance dispatcherBraces = 6 := by
  decide

/-- C6: with no GC stop pending, `schedule` picks the next goroutine in a
fixed order — one goroutine from the global run queue on every 61st tick
with a non-empty global queue; otherwise the head of the P's local run
queue; otherwise `findrunnable`'s result — and hands it to `execute`. -/
theorem schedule_order (st : SchedState) (hgc : st.gcwaiting = 0) :
    (∀ g rest, st.schedtick % 61 = 0 → st.globrunq = g :: rest →
      schedule st = some (execute g false)) ∧
    (∀ g b rest, ¬(st.schedtick % 61 = 0 ∧ st.globrunq ≠ []) →
      st.runq = (g, b) :: rest → schedule st = some (execute g b)) ∧
    (¬(st.schedtick % 61 = 0 ∧ st.globrunq ≠ []) → st.runq = [] →
      schedule st = some (execute st.findrunnable.1 st.findrunnable.2)) := by
  refine ⟨?_, ?_, ?_⟩
  · intro g rest h61 hq
    simp [schedule, hgc, h61, hq, globrunqget]
  · intro g b rest hcond hq
    have hng : ¬(st.schedtick % 61 = 0 ∧ st.globrunq.length > 0) := by
      rintro ⟨ha, hb⟩
      exact hcond ⟨ha, List.length_pos.mp hb⟩
    simp [schedule, hgc, hng, hq, runqget]
  · intro hcond hq
    have hng : ¬(st.schedtick % 61 = 0 ∧ st.globrunq.length > 0) := by
      rintro ⟨ha, hb⟩
      exact hcond ⟨ha, List.length_pos.mp hb⟩
    simp [schedule, hgc, hng, hq, runqget]

/-- Witness for `schedule_order`: on tick 61 the global queue head `7` is
run; with the global check failing, local head `3` is run inheriting time;
with both queues empty, `findrunnable`'s goroutine `9` is run. -/
theorem schedule_order_witness :
    schedule ⟨0, 61, [7, 8], [(3, true)], (9, false)⟩ = some (execute 7 false) ∧
    schedule ⟨0, 5, [7, 8], [(3, true)], (9, false)⟩ = some (execute 3 true) ∧
    schedule ⟨0, 5, [], [], (9, false)⟩ = some (execute 9 false) :=
  ⟨(schedule_order ⟨0, 61, [7, 8], [(3, true)], (9, false)⟩ rfl).1 7 [8]
      (by norm_num) rfl,
   (schedule_order ⟨0, 5, [7, 8], [(3, true)], (9, false)⟩ rfl).2.1 3 true [(3, true)].tail
      (by norm_num) rfl,
   (schedule_order ⟨0, 5, [], [], (9, false)⟩ rfl).2.2 (by norm_num) rfl⟩

/-- C4: `chansend` on a well-formed channel follows the runtime's send
algorithm — panic `"send on closed channel"` on a closed channel; direct
hand-off to a waiting receiver; buffering at `sendx` with circular advance
and `qcount` increment while the buffer has room; otherwise `false` for a
non-blocking send and parking on `sendq` for a blocking one. -/
theorem chansend_spec (c : HChan) (v : Val) (block : Bool) (hwf : ChanWF c) :
    (c.closed = true →
      chansend c v block = .panicked "send on closed channel") ∧
    (c.closed = false → ∀ r rest, c.recvq = r :: rest →
      chansend c v block = .handed r v { c with recvq := rest }) ∧
    (c.closed = false → c.recvq = [] → c.qcount < c.dataqsiz →
      chansend c v block = .buffered { c with
        buf := c.buf.set c.sendx v
        sendx := if c.sendx + 1 = c.dataqsiz then 0 else c.sendx + 1
        qcount := c.qcount + 1 }) ∧
    (c.closed = false → c.recvq = [] → ¬ c.qcount < c.dataqsiz →
      (block = false → chansend c v block = .wouldBlock c) ∧
      (block = true →
        chansend c v block = .parked { c with sendq := c.sendq ++ [v] })) := by
  refine ⟨?_, ?_, ?_, ?_⟩
  · intro hc
    simp [chansend, hc]
  · intro hc r rest hq
    have hfull : full c = false := by
      unfold full
      rcases Nat.eq_zero_or_pos c.dataqsiz with h0 | hpos
      · simp [h0, hq]
      · have hq0 : c.qcount = 0 := hwf.1 (by simp [hq])
        have : ¬ c.dataqsiz = 0 := by omega
        simp [this, hq0]
        omega
    simp [chansend, hc, hfull, hq]
  · intro hc hq hlt
    have hfull : full c = false := by
      unfold full
      have : ¬ c.dataqsiz = 0 := by omega
      simp [this]
      omega
    simp [chansend, hc, hfull, hq, hlt]
  · intro hc hq hge
    have hfull : full c = true := by
      unfold full
      rcases Nat.eq_zero_or_pos c.dataqsiz with h0 | hpos
      · simp [h0, hq]
      · have : ¬ c.dataqsiz = 0 := by omega
        have hle : c.qcount ≤ c.dataqsiz := hwf.2.1
        simp [this]
        omega
    constructor
    · intro hb
      simp [chansend, hc, hfull, hb]
    · intro hb
      simp [chansend, hc, hfull, hb, hq, hge]

/-- Witness for `chansend_spec` on concrete channels: a send on a closed
channel panics; a blocking send into a one-slot empty buffer stores the
element, advances `sendx` circularly back to `0` and increments `qcount`. -/
theorem chansend_spec_witness :
    chansend ⟨0, 1, [0], true, 0, 0, [], []⟩ 5 true =
      .panicked "send on closed channel" ∧
    chansend ⟨0, 1, [0], false, 0, 0, [], []⟩ 5 true =
      .buffered ⟨1, 1, [5], false, 0, 0, [], []⟩ := by
  have hwf₁ : ChanWF ⟨0, 1, [0], true, 0, 0, [], []⟩ := by
    refine ⟨fun h => rfl, by norm_num, fun _ => by norm_num, rfl⟩
  have hwf₂ : ChanWF ⟨0, 1, [0], false, 0, 0, [], []⟩ := by
    refine ⟨fun h => rfl, by norm_num, fun _ => by norm_num, rfl⟩
  refine ⟨(chansend_spec ⟨0, 1, [0], true, 0, 0, [], []⟩ 5 true hwf₁).1 rfl, ?_⟩
  have h := (chansend_spec ⟨0, 1, [0], false, 0, 0, [], []⟩ 5 true hwf₂).2.2.1
    rfl rfl (by norm_num)
  simpa using h

/-- C10: when the selected operation's required argument is empty —
`-path` for create, read, write, append, delete and list, `-path` or
`-dest` for copy and rename — `cmdMain` prints the message naming the
missing argument and returns: no file-operation helper is called and the
file system is unchanged. -/
theorem main_missing_arg (f : CommandFlags) (fs : FS) (o : Op)
    (hHelp : f.Help = false) (hSel : selectedOp f = some o)
    (hMiss : requiredMissing o f) :
    cmdMain f fs = ([.printed (missingArgMsg o ++ "\n")], fs) := by
  unfold selectedOp at hSel
  split_ifs at hSel <;> cases hSel <;>
    (simp only [requiredMissing] at hMiss;
     unfold cmdMain;
     simp_all [missingArgMsg])

/-- Witness for `main_missing_arg`: invoking the utility with `-copy` and
empty `-path`/`-dest` on the empty file system prints the missing-argument
message and changes nothing. -/
theorem main_missing_arg_witness :
    cmdMain (onlyFlag .copy) [] =
      ([.printed (missingArgMsg .copy ++ "\n")], []) :=
  main_missing_arg (onlyFlag .copy) [] .copy rfl (by decide) (Or.inl rfl)

/-- C3: each wrapper of `cmdline.go` is extensionally equal to the
composition of `os`/`io` primitives the spec names — `readFile` is
`os.ReadFile` converted to string, `writeFile` is `os.WriteFile` with mode
`0644`, `deleteFile` is `os.Remove`, `renameFile` is `os.Rename`,
`createFile` is `os.Create` followed by `Close`, `copyFile` is `os.Open`,
`os.Create` and `io.Copy` composed, and `listFiles` returns the
`os.ReadDir` entry names with `"/"` appended to directories; no wrapper
adds behaviour beyond the wrapped calls. -/
theorem wrappers_thin (fs : FS) (p src dest old new : String)
    (content : GoString) :
    readFile fs p = readFileSpec fs p ∧
    writeFile fs p content = writeFileSpec fs p content ∧
    deleteFile fs p = deleteFileSpec fs p ∧
    renameFile fs old new = renameFileSpec fs old new ∧
    createFile fs p = createFileSpec fs p ∧
    copyFile fs src dest = copyFileSpec fs src dest ∧
    listFiles fs p = listFilesSpec fs p := by
  refine ⟨?_, ?_, ?_, ?_, ?_, ?_, ?_⟩
  · cases h : osReadFile fs p <;> simp [readFile, readFileSpec, h]
  · cases h : osWriteFile fs p (bytesOfString content) 0o644 <;>
      simp [writeFile, writeFileSpec, h]
  · cases h : osRemove fs p <;> simp [deleteFile, deleteFileSpec, h]
  · cases h : osRename fs old new <;> simp [renameFile, renameFileSpec, h]
  · cases h : osCreate fs p <;> simp [createFile, createFileSpec, fileClose, h]
  · cases h : osOpen fs src with
    | error e => simp [copyFile, copyFileSpec, h]
    | ok srcContent =>
      cases h₂ : osCreate fs dest <;>
        simp [copyFile, copyFileSpec, ioCopy, h, h₂]
  · cases h : osReadDir fs p with
    | error e => simp [listFiles, listFilesSpec, h]
    | ok entries =>
      have hfold : ∀ (es : List DirEntry) (acc : List String),
          es.foldl (fun acc entry =>
            let fileInfo := entry.name
            let fileInfo := if entry.isDir then fileInfo ++ "/" else fileInfo
            acc ++ [fileInfo]) acc =
            acc ++ es.map (fun en =>
              if en.isDir then en.name ++ "/" else en.name) := by
        intro es
        induction es with
        | nil => intro acc; simp
        | cons e t ih => intro acc; simp [ih]
      simp [listFiles, listFilesSpec, h, hfold]

/-- C1 counterexample: the utility's operations are not exactly
create/read/write/copy/delete/list/rename — `parseFlags` also registers the
boolean flag `-append`, `cmdMain` selects the `append` operation for it and
calls the helper `appendToFile`, and `append` is outside the claimed
seven-operation list. -/
theorem append_also_selectable :
    (⟨"append", true, "Append to a file"⟩ : FlagSpec) ∈ parseFlagsRegistered ∧
    selectedOp (onlyFlag .append) = some .append ∧
    Event.opCalled "appendToFile" ∈
      (cmdMain { onlyFlag .append with Path := "f" } [("f", .file [])]).1 ∧
    (Op.append ∉
      ([.create, .read, .write, .copy, .delete, .list, .rename] : List Op)) := by
  decide

/-- C1 amended: the utility offers exactly the operations create, read,
write, append, copy, delete, list and rename, each selected by its own
boolean flag, together with the boolean `-help` flag and the string flags
`-path`, `-content` and `-dest`; every helper call `cmdMain` can make is
one of these eight operations' helpers, and each of the eight is reachable
from the command line. -/
theorem cmdline_operations (f : CommandFlags) (fs : FS) :
    parseFlagsRegistered.map FlagSpec.name =
      ["create", "read", "write", "copy", "delete", "list", "rename",
       "append", "help", "path", "content", "dest"] ∧
    ((parseFlagsRegistered.filter fun s => s.isBool).map FlagSpec.name =
      ["create", "read", "write", "copy", "delete", "list", "rename",
       "append", "help"]) ∧
    (∀ e ∈ (cmdMain f fs).1, ∀ s, e = .opCalled s →
      ∃ o : Op, s = helperName o) ∧
    (∀ o : Op, ∃ f₀ fs₀, Event.opCalled (helperName o) ∈ (cmdMain f₀ fs₀).1) := by
  refine ⟨rfl, rfl, ?_, ?_⟩
  · intro e he s hes
    subst hes
    by_cases hH : f.Help = true
    · unfold cmdMain at he
      rw [if_pos hH] at he
      simp at he
    · rcases hSel : selectedOp f with _ | o
      · unfold selectedOp at hSel
        split_ifs at hSel with g1 g2 g3 g4 g5 g6 g7 g8
        all_goals try (cases hSel)
        unfold cmdMain at he
        rw [if_neg hH, if_neg g1, if_neg g2, if_neg g3, if_neg g4, if_neg g5,
            if_neg g6, if_neg g7, if_neg g8] at he
        simp at he
      · unfold selectedOp at hSel
        split_ifs at hSel with g1 g2 g3 g4 g5 g6 g7 g8 <;> cases hSel <;>
          (unfold cmdMain at he; rw [if_neg hH] at he)
        · rw [if_pos g1] at he
          by_cases hP : f.Path = ""
          · rw [if_pos hP] at he
            simp at he
          · rw [if_neg hP] at he
            rcases hc : createFile fs f.Path with ⟨err, fs'⟩
            rw [hc] at he
            cases err <;> simp at he <;>
              exact ⟨.create, by simp [helperName, he]⟩
        · rw [if_neg g1, if_pos g2] at he
          by_cases hP : f.Path = ""
          · rw [if_pos hP] at he
            simp at he
          · rw [if_neg hP] at he
            rcases hc : readFile fs f.Path with ⟨content, err⟩
            rw [hc] at he
            cases err <;> simp at he <;>
              exact ⟨.read, by simp [helperName, he]⟩
        · rw [if_neg g1, if_neg g2, if_pos g3] at he
          by_cases hP : f.Path = ""
          · rw [if_pos hP] at he
            simp at he
          · rw [if_neg hP] at he
            rcases hc : writeFile fs f.Path (goBytes f.Content) with ⟨err, fs'⟩
            rw [hc] at he
            cases err <;> simp at he <;>
              exact ⟨.write, by simp [helperName, he]⟩
        · rw [if_neg g1, if_neg g2, if_neg g3, if_pos g4] at he
          by_cases hP : f.Path = ""
          · rw [if_pos hP] at he
            simp at he
          · rw [if_neg hP] at he
            rcases hc : appendToFile fs f.Path (goBytes f.Content) with ⟨err, fs'⟩
            rw [hc] at he
            cases err <;> simp at he <;>
              exact ⟨.append, by simp [helperName, he]⟩
        · rw [if_neg g1, if_neg g2, if_neg g3, if_neg g4, if_pos g5] at he
          by_cases hP : f.Path = "" ∨ f.Dest = ""
          · rw [if_pos hP] at he
            simp at he
          · rw [if_neg hP] at he
            rcases hc : copyFile fs f.Path f.Dest with ⟨err, fs'⟩
            rw [hc] at he
            cases err <;> simp at he <;>
              exact ⟨.copy, by simp [helperName, he]⟩
        · rw [if_neg g1, if_neg g2, if_neg g3, if_neg g4, if_neg g5,
              if_pos g6] at he
          by_cases hP : f.Path = ""
          · rw [if_pos hP] at he
            simp at he
          · rw [if_neg hP] at he
            rcases hc : deleteFile fs f.Path with ⟨err, fs'⟩
            rw [hc] at he
            cases err <;> simp at he <;>
              exact ⟨.delete, by simp [helperName, he]⟩
        · rw [if_neg g1, if_neg g2, if_neg g3, if_neg g4, if_neg g5, if_neg g6,
              if_pos g7] at he
          by_cases hP : f.Path = ""
          · rw [if_pos hP] at he
            simp at he
          · rw [if_neg hP] at he
            rcases hc : listFiles fs f.Path with ⟨files?, err⟩
            rw [hc] at he
            cases err <;> simp at he <;>
              exact ⟨.list, by simp [helperName, he]⟩
        · rw [if_neg g1, if_neg g2, if_neg g3, if_neg g4, if_neg g5, if_neg g6,
              if_neg g7, if_pos g8] at he
          by_cases hP : f.Path = "" ∨ f.Dest = ""
          · rw [if_pos hP] at he
            simp at he
          · rw [if_neg hP] at he
            rcases hc : renameFile fs f.Path f.Dest with ⟨err, fs'⟩
            rw [hc] at he
            cases err <;> simp at he <;>
              exact ⟨.rename, by simp [helperName, he]⟩
  · intro o
    refine ⟨{ onlyFlag o with Path := "x", Dest := "y" }, [], ?_⟩
    cases o <;> decide

/-- Witness for `cmdline_operations`: the helper `appendToFile`, called on
a concrete invocation, is one of the eight operations' helpers, and the
`append` operation is reachable. -/
theorem cmdline_operations_witness :
    (∃ o : Op, "appendToFile" = helperName o) ∧
    (∃ f₀ fs₀, Event.opCalled (helperName Op.append) ∈ (cmdMain f₀ fs₀).1) :=
  ⟨(cmdline_operations { onlyFlag .append with Path := "f" }
        [("f", .file [])]).2.2.1
      (.opCalled "appendToFile") (by decide) "appendToFile" rfl,
   (cmdline_operations (onlyFlag .append) []).2.2.2 .append⟩

/-! ### Bit-level helpers for the mutex state word -/

/-- Or-ing in a value below `8` leaves the bits at and above position `3`
unchanged. -/
theorem lor_small_shiftRight (x s : Nat) (hs : s < 8) :
    (x ||| s) >>> 3 = x >>> 3 := by
  apply Nat.eq_of_testBit_eq
  intro i
  have hsmall : s < 2 ^ (3 + i) := by
    calc s < 8 := hs
    _ = 2 ^ 3 := by norm_num
    _ ≤ 2 ^ (3 + i) := Nat.pow_le_pow_right (by norm_num) (by omega)
  simp [Nat.testBit_lt_two_pow hsmall]

/-- Clearing bits of a value below `8` leaves the bits at and above
position `3` unchanged. -/
theorem ldiff_small_shiftRight (x s : Nat) (hs : s < 8) :
    (Nat.ldiff x s) >>> 3 = x >>> 3 := by
  apply Nat.eq_of_testBit_eq
  intro i
  have hsmall : s < 2 ^ (3 + i) := by
    calc s < 8 := hs
    _ = 2 ^ 3 := by norm_num
    _ ≤ 2 ^ (3 + i) := Nat.pow_le_pow_right (by norm_num) (by omega)
  simp [Nat.testBit_ldiff, Nat.testBit_lt_two_pow hsmall]

/-- Adding `8` increments the value of the bits at and above position `3`. -/
theorem add_eight_shiftRight (x : Nat) : (x + 8) >>> 3 = x >>> 3 + 1 := by
  rw [Nat.shiftRight_eq_div_pow, Nat.shiftRight_eq_div_pow]
  have h : (2 : Nat) ^ 3 = 8 := by norm_num
  rw [h]
  omega

/-- Clearing bit `1` does not change parity. -/
theorem ldiff_two_mod_two (x : Nat) : Nat.ldiff x 2 % 2 = x % 2 := by
  have h : (Nat.ldiff x 2).testBit 0 = x.testBit 0 := by
    rw [Nat.testBit_ldiff]
    simp
  simp only [Nat.testBit_zero] at h
  rcases Nat.mod_two_eq_zero_or_one (Nat.ldiff x 2) with h1 | h1 <;>
    rcases Nat.mod_two_eq_zero_or_one x with h2 | h2 <;>
      simp [h1, h2] at h ⊢

/-- And-ing with a value below `8` only reads the three low bits. -/
theorem and_low_eq (x s : Nat) (hs : s < 8) : x &&& s = x % 8 &&& s := by
  apply Nat.eq_of_testBit_eq
  intro i
  simp only [Nat.testBit_and]
  rcases Nat.lt_or_ge i 3 with h | h
  · have h8 : (8 : Nat) = 2 ^ 3 := by norm_num
    rw [h8, Nat.testBit_mod_two_pow]
    simp [h]
  · have hsb : s.testBit i = false := by
      apply Nat.testBit_lt_two_pow
      calc s < 8 := hs
      _ = 2 ^ 3 := by norm_num
      _ ≤ 2 ^ i := Nat.pow_le_pow_right (by norm_num) h
    simp [hsb]

/-- A state word with both `mutexLocked` and `mutexStarving` clear has each
of the two bits clear. -/
theorem and_flags_split (old : Nat)
    (H : old &&& (mutexLocked ||| mutexStarving) = 0) :
    old &&& mutexLocked = 0 ∧ old &&& mutexStarving = 0 := by
  have h5 : old % 8 &&& 5 = 0 := by
    have h := H
    rw [show mutexLocked ||| mutexStarving = 5 from by decide,
      and_low_eq old 5 (by norm_num)] at h
    exact h
  have h8 : old % 8 < 8 := Nat.mod_lt _ (by norm_num)
  rw [show mutexLocked = 1 from by decide, show mutexStarving = 4 from by decide,
    and_low_eq old 1 (by norm_num), and_low_eq old 4 (by norm_num)]
  set r := old % 8 with hr
  interval_cases r <;> revert h5 <;> decide

/-- The waiter count (bits at and above `mutexWaiterShift`) of the state
`lockSlow` proposes: incremented by one exactly when the mutex was held or
starving, otherwise unchanged. -/
theorem lockSlowNewState_waiters (old : Nat) (starving awoke : Bool) :
    lockSlowNewState old starving awoke >>> mutexWaiterShift =
      old >>> mutexWaiterShift +
        (if old &&& (mutexLocked ||| mutexStarving) = 0 then 0 else 1) := by
  have h8 : (1 <<< 3 : Nat) = 8 := by decide
  have l1 : ∀ x : Nat, (x ||| mutexLocked) >>> 3 = x >>> 3 :=
    fun x => lor_small_shiftRight x mutexLocked (by decide)
  have l2 : ∀ x : Nat, (x ||| mutexStarving) >>> 3 = x >>> 3 :=
    fun x => lor_small_shiftRight x mutexStarving (by decide)
  have l3 : ∀ x : Nat, (Nat.ldiff x mutexWoken) >>> 3 = x >>> 3 :=
    fun x => ldiff_small_shiftRight x mutexWoken (by decide)
  unfold lockSlowNewState
  simp only [mutexWaiterShift, h8]
  split_ifs <;>
    (try simp only [h8, l1, l2, l3, add_eight_shiftRight]) <;> omega

/-- The state installed by `lockSlow`'s normal-mode acquiring
compare-and-swap (`old` neither locked nor starving) has the
`mutexLocked` bit set. -/
theorem lockSlowNewState_locked (old : Nat) (starving awoke : Bool)
    (H : old &&& (mutexLocked ||| mutexStarving) = 0) :
    lockSlowNewState old starving awoke &&& mutexLocked = mutexLocked := by
  obtain ⟨h1, h4⟩ := and_flags_split old H
  have hml : mutexLocked = 1 := by decide
  have hmw : mutexWoken = 2 := by decide
  unfold lockSlowNewState
  split_ifs with c1 c2 c3 c4 <;>
    first
    | exact absurd H c1
    | exact absurd H c2
    | exact absurd H c3
    | exact absurd h4 c1
    | exact absurd h4 c2
    | exact absurd h4 c3
    | exact absurd h1 c1.2
    | exact absurd h1 c2.2
    | exact absurd h1 c3.2
    | (rw [hml, hmw, Nat.and_one_is_mod, ldiff_two_mod_two]
       simp [Nat.or_mod_two_eq_one])
    | (rw [hml, Nat.and_one_is_mod]
       simp [Nat.or_mod_two_eq_one])

/-- The state after the starving-mode hand-off add
(`atomic.AddInt32(&m.state, delta)`, `old` not locked) has the
`mutexLocked` bit set. -/
theorem starving_handoff_locked (old : Nat) (starving : Bool)
    (h1 : old &&& mutexLocked = 0) :
    addInt32 old (starvingDelta old starving) &&& mutexLocked = mutexLocked := by
  have hml : mutexLocked = 1 := by decide
  have hmod : old % 2 = 0 := by
    have h := h1
    rw [hml, Nat.and_one_is_mod] at h
    exact h
  rw [hml, Nat.and_one_is_mod]
  unfold addInt32 starvingDelta
  have h8 : ((1 <<< mutexWaiterShift : Nat) : Int) = 8 := by decide
  have hmlI : ((mutexLocked : Nat) : Int) = 1 := by decide
  have hmsI : ((mutexStarving : Nat) : Int) = 4 := by decide
  have hp : (2 : Int) ^ 32 = 4294967296 := by norm_num
  split_ifs <;> simp only [h8, hmlI, hmsI, hp] <;> omega

/-- C5: the mutex state machine — `mutexLocked`, `mutexWoken` and
`mutexStarving` are the three low bits `1`, `2`, `4` and waiters are
counted from bit `mutexWaiterShift = 3`; the state proposed by `lockSlow`'s
compare-and-swap changes the waiter count exactly as the encoding
prescribes; and every path by which `Lock` returns — the fast-path CAS from
`0`, the normal-mode acquiring CAS, and the starving-mode hand-off add —
leaves the state with the `mutexLocked` bit set. -/
theorem mutex_lock_invariant (old : Nat) (starving awoke : Bool) :
    (mutexLocked = 1 ∧ mutexWoken = 2 ∧ mutexStarving = 4 ∧
      mutexWaiterShift = 3) ∧
    lockSlowNewState old starving awoke >>> mutexWaiterShift =
      old >>> mutexWaiterShift +
        (if old &&& (mutexLocked ||| mutexStarving) = 0 then 0 else 1) ∧
    lockFastPathState &&& mutexLocked = mutexLocked ∧
    (old &&& (mutexLocked ||| mutexStarving) = 0 →
      lockSlowNewState old starving awoke &&& mutexLocked = mutexLocked) ∧
    (old &&& mutexLocked = 0 →
      addInt32 old (starvingDelta old starving) &&& mutexLocked = mutexLocked) :=
  ⟨⟨by decide, by decide, by decide, rfl⟩,
   lockSlowNewState_waiters old starving awoke,
   by decide,
   lockSlowNewState_locked old starving awoke,
   starving_handoff_locked old starving⟩

/-- Witness for `mutex_lock_invariant`: from the free state `0` the
acquiring CAS sets the locked bit, and from state `8` (one waiter, not
locked) the starving hand-off add sets the locked bit. -/
theorem mutex_lock_invariant_witness :
    lockSlowNewState 0 false false &&& mutexLocked = mutexLocked ∧
    addInt32 8 (starvingDelta 8 false) &&& mutexLocked = mutexLocked :=
  ⟨(mutex_lock_invariant 0 false false).2.2.2.1 (by decide),
   (mutex_lock_invariant 8 false false).2.2.2.2 (by decide)⟩

end BackendLearning
